import Mathlib

/-!
Verification of the pooling cost estimators in
`colossalai/auto_parallel/meta_profiler/meta_registry/pooling.py`.

The two estimators (`avgpool_meta_info`, `maxpool_meta_info`) are pure
functions over shape/dtype-only tensor metadata.  We embed:

* meta tensors as shape (list of dimension sizes) plus element byte width;
* `activation_size` (byte footprint: element count times element width,
  summed over lists) — consumed collaborator, modelled from the spec's
  tensor-size interface;
* the FLOP-mapping collaborator as an abstract record of four functions
  (one per primitive identifier the estimators look up), since the
  estimators only *apply* these functions to argument lists they build;
* the `next(filter(...))` lookups as `List.find?` with failure mapped to
  an `Except` error (the spec's `MissingOperandError`);
* the two estimator bodies line by line.
-/

/-- A "meta" tensor: shape/dtype metadata only, never real data.
`elemSize` is the byte width of one element (e.g. 4 for float32,
8 for int64). -/
structure MetaTensor where
  shape : List Nat
  elemSize : Nat
  deriving DecidableEq, Repr

/-- Element count of a meta tensor: product of its dimension sizes. -/
def numel (t : MetaTensor) : Nat :=
  t.shape.foldl (fun a b => a * b) 1

/-- Modelled from the spec: the consumed tensor-size interface
`activation_size(tensor) -> int` (its implementation lives in
`colossalai.fx.profiler.memory_utils`, outside this fragment): total
byte footprint from shape+dtype metadata alone. -/
def activation_size (t : MetaTensor) : Nat :=
  numel t * t.elemSize

/-- Modelled from the spec: `activation_size` applied to a list of
tensors sums the byte footprints of its members. -/
def activation_size_list (ts : List MetaTensor) : Nat :=
  (ts.map activation_size).sum

/-- Role tag of an operation data item (`OperationDataType` in
`sharding_strategy`, consumed not owned): the estimators match on
`ARG` and `OUTPUT`. -/
inductive OperationDataType where
  | ARG
  | PARAM
  | OUTPUT
  deriving DecidableEq, Repr, BEq

/-- One item of an estimator's argument sequence: a role tag paired with
the tensor metadata (`.data`). -/
structure OperationData where
  type : OperationDataType
  data : MetaTensor
  deriving DecidableEq, Repr

/-- `MemoryCost(activation=..., temp=...)`: byte counts, with `temp`
defaulting to 0.  `activation` is an integer because
`maxpool_meta_info` computes it by subtraction, which Python does not
clamp at zero. -/
structure MemoryCost where
  activation : Int
  temp : Int := 0
  deriving DecidableEq, Repr

/-- `TrainCycleItem(fwd=..., bwd=..., total=...)`: a per-phase cost with
its total. -/
structure TrainCycleItem (α : Type) where
  fwd : α
  bwd : α
  total : α
  deriving DecidableEq, Repr

/-- Modelled from the spec: the failure signalled when the argument
sequence lacks a resolvable ARGUMENT- or OUTPUT-tagged item (in the
Python code, `next` on an exhausted `filter` raises; the spec names
this failure `MissingOperandError`; it is not recovered locally). -/
inductive EstimatorError where
  | MissingOperandError
  deriving DecidableEq, Repr

/-- The consumed FLOP-mapping collaborator (`flop_mapping` in
`colossalai.fx.profiler.opcount`, outside this fragment): one function
`(inputs, outputs) -> count` per primitive identifier the estimators
look up.  The estimators are parametric in it: the claims are about
which argument lists they pass to which entry. -/
structure FlopMapping where
  adaptive_avg_pool2d : List MetaTensor → List MetaTensor → Int
  adaptive_avg_pool2d_backward : List MetaTensor → List MetaTensor → Int
  max_pool2d_with_indices : List MetaTensor → List MetaTensor → Int
  max_pool2d_with_indices_backward : List MetaTensor → List MetaTensor → Int

/-- An estimator's full return value: compute cost, memory cost, and the
forward-saved-inputs list. -/
abbrev MetaInfo := TrainCycleItem Int × TrainCycleItem MemoryCost × List MetaTensor

/-- Body of `avgpool_meta_info` after the two operand lookups succeed
(source lines 36-65), with `input_tensor` and `output_tensor` the
tensors of the located ARG and OUTPUT items. -/
def avgpool_core (flop_mapping : FlopMapping) (input_tensor output_tensor : MetaTensor) :
    MetaInfo :=
  -- construct forward args for flop mapping
  let fwd_in_args := [input_tensor]
  let fwd_out_args := [output_tensor]
  -- construct backward args for flop mapping
  let bwd_in_args := [output_tensor]
  let bwd_out_args := [input_tensor]
  -- calculate compute cost
  let fwd_compute_cost := flop_mapping.adaptive_avg_pool2d fwd_in_args fwd_out_args
  let bwd_compute_cost := flop_mapping.adaptive_avg_pool2d_backward bwd_in_args bwd_out_args
  let compute_cost : TrainCycleItem Int :=
    { fwd := fwd_compute_cost, bwd := bwd_compute_cost,
      total := fwd_compute_cost + bwd_compute_cost }
  -- calculate memory cost
  let fwd_mem_cost : MemoryCost := { activation := (activation_size output_tensor : Int) }
  let bwd_mem_cost : MemoryCost := { activation := (activation_size input_tensor : Int) }
  -- total cost
  let total_mem_cost : MemoryCost :=
    { activation := fwd_mem_cost.activation + bwd_mem_cost.activation }
  let mem_cost : TrainCycleItem MemoryCost :=
    { fwd := fwd_mem_cost, bwd := bwd_mem_cost, total := total_mem_cost }
  -- store_fwd_in
  let fwd_in := [input_tensor]
  (compute_cost, mem_cost, fwd_in)

/-- `avgpool_meta_info(*args)`: locate the first ARG-tagged and the
first OUTPUT-tagged item (`next(filter(...))`, failing with the
missing-operand error if absent), then compute the costs. -/
def avgpool_meta_info (flop_mapping : FlopMapping) (args : List OperationData) :
    Except EstimatorError MetaInfo :=
  match args.find? (fun x => x.type == OperationDataType.ARG) with
  | none => .error .MissingOperandError
  | some arg_item =>
    match args.find? (fun x => x.type == OperationDataType.OUTPUT) with
    | none => .error .MissingOperandError
    | some out_item => .ok (avgpool_core flop_mapping arg_item.data out_item.data)

/-- `torch.zeros_like(output_tensor, device="meta", dtype=torch.int64)`:
the auxiliary index matrix, same shape as the output and 8-byte (int64)
elements, shape metadata only. -/
def index_matrix (output_tensor : MetaTensor) : MetaTensor :=
  { shape := output_tensor.shape, elemSize := 8 }

/-- Body of `maxpool_meta_info` after the two operand lookups succeed
(source lines 91-128). -/
def maxpool_core (flop_mapping : FlopMapping) (input_tensor output_tensor : MetaTensor) :
    MetaInfo :=
  -- construct forward args for flop mapping
  let fwd_in_args := [input_tensor]
  let fwd_out_args := [output_tensor]
  -- construct backward args for flop mapping
  let bwd_in_args := [output_tensor]
  let bwd_out_args := [input_tensor]
  -- construct index matrix
  let idx := index_matrix output_tensor
  -- calculate compute cost
  let fwd_compute_cost := flop_mapping.max_pool2d_with_indices fwd_in_args fwd_out_args
  let bwd_compute_cost := flop_mapping.max_pool2d_with_indices_backward bwd_in_args bwd_out_args
  let compute_cost : TrainCycleItem Int :=
    { fwd := fwd_compute_cost, bwd := bwd_compute_cost,
      total := fwd_compute_cost + bwd_compute_cost }
  -- calculate memory cost: the index matrix is retained after forward
  let fwd_mem_cost : MemoryCost :=
    { activation := (activation_size_list [input_tensor, output_tensor, idx] : Int) }
  -- temp memory for backward is the index matrix to be discarded
  let bwd_mem_cost : MemoryCost :=
    { activation := (activation_size input_tensor : Int) - (activation_size idx : Int),
      temp := (activation_size idx : Int) }
  -- total cost
  let total_mem_cost : MemoryCost :=
    { activation := fwd_mem_cost.activation + bwd_mem_cost.activation,
      temp := bwd_mem_cost.temp }
  let mem_cost : TrainCycleItem MemoryCost :=
    { fwd := fwd_mem_cost, bwd := bwd_mem_cost, total := total_mem_cost }
  -- store_fwd_in
  let fwd_in := [input_tensor]
  (compute_cost, mem_cost, fwd_in)

/-- `maxpool_meta_info(*args)`: same lookup discipline as
`avgpool_meta_info`, then the max-pooling cost computation. -/
def maxpool_meta_info (flop_mapping : FlopMapping) (args : List OperationData) :
    Except EstimatorError MetaInfo :=
  match args.find? (fun x => x.type == OperationDataType.ARG) with
  | none => .error .MissingOperandError
  | some arg_item =>
    match args.find? (fun x => x.type == OperationDataType.OUTPUT) with
    | none => .error .MissingOperandError
    | some out_item => .ok (maxpool_core flop_mapping arg_item.data out_item.data)

/- Concrete instances used by witnesses and counterexamples. -/

/-- A concrete FLOP-mapping collaborator whose entries count how many
tensors appear in the input list: it distinguishes argument lists of
different lengths. -/
def flopCount : FlopMapping :=
  { adaptive_avg_pool2d := fun ins _ => (ins.length : Int),
    adaptive_avg_pool2d_backward := fun ins _ => (ins.length : Int),
    max_pool2d_with_indices := fun ins _ => (ins.length : Int),
    max_pool2d_with_indices_backward := fun ins _ => (ins.length : Int) }

/-- The spec's example input tensor: shape [1,3,8,8], float32. -/
def tIn : MetaTensor := { shape := [1, 3, 8, 8], elemSize := 4 }

/-- The spec's example output tensor: shape [1,3,4,4], float32. -/
def tOut : MetaTensor := { shape := [1, 3, 4, 4], elemSize := 4 }

/-- A well-formed argument sequence: one ARG item then one OUTPUT item. -/
def sampleArgs : List OperationData :=
  [{ type := .ARG, data := tIn }, { type := .OUTPUT, data := tOut }]

/- Helper lemmas shared by the claim theorems. -/

/-- When both operand lookups succeed, `avgpool_meta_info` returns the
core computation on the located tensors. -/
theorem avgpool_meta_info_eq (f : FlopMapping) (args : List OperationData)
    (arg_item out_item : OperationData)
    (hA : args.find? (fun x => x.type == OperationDataType.ARG) = some arg_item)
    (hO : args.find? (fun x => x.type == OperationDataType.OUTPUT) = some out_item) :
    avgpool_meta_info f args = .ok (avgpool_core f arg_item.data out_item.data) := by
  simp [avgpool_meta_info, hA, hO]

/-- When both operand lookups succeed, `maxpool_meta_info` returns the
core computation on the located tensors. -/
theorem maxpool_meta_info_eq (f : FlopMapping) (args : List OperationData)
    (arg_item out_item : OperationData)
    (hA : args.find? (fun x => x.type == OperationDataType.ARG) = some arg_item)
    (hO : args.find? (fun x => x.type == OperationDataType.OUTPUT) = some out_item) :
    maxpool_meta_info f args = .ok (maxpool_core f arg_item.data out_item.data) := by
  simp [maxpool_meta_info, hA, hO]

/- Claim theorems. -/

/-- C1: for every call of `maxpool_meta_info` whose argument list has a
first ARG-tagged item with tensor `input` and a first OUTPUT-tagged item
with tensor `output`, the returned memory cost satisfies
`fwd.activation = activation_size [input, output, index]`,
`bwd.activation = activation_size input - activation_size index`,
`bwd.temp = activation_size index`,
`total.activation = fwd.activation + bwd.activation`,
`total.temp = bwd.temp` and `fwd.temp = 0`. -/
theorem maxpool_memory_cost (f : FlopMapping) (args : List OperationData)
    (arg_item out_item : OperationData)
    (hA : args.find? (fun x => x.type == OperationDataType.ARG) = some arg_item)
    (hO : args.find? (fun x => x.type == OperationDataType.OUTPUT) = some out_item) :
    ∃ r : MetaInfo, maxpool_meta_info f args = .ok r ∧
      r.2.1.fwd.activation =
        (activation_size_list [arg_item.data, out_item.data, index_matrix out_item.data] : Int) ∧
      r.2.1.bwd.activation =
        (activation_size arg_item.data : Int) - (activation_size (index_matrix out_item.data) : Int) ∧
      r.2.1.bwd.temp = (activation_size (index_matrix out_item.data) : Int) ∧
      r.2.1.total.activation = r.2.1.fwd.activation + r.2.1.bwd.activation ∧
      r.2.1.total.temp = r.2.1.bwd.temp ∧
      r.2.1.fwd.temp = 0 :=
  ⟨maxpool_core f arg_item.data out_item.data,
    maxpool_meta_info_eq f args arg_item out_item hA hO,
    rfl, rfl, rfl, rfl, rfl, rfl⟩

/-- C1 witness: the claim applied to a concrete call. -/
theorem maxpool_memory_cost_witness :
    ∃ r : MetaInfo, maxpool_meta_info flopCount sampleArgs = .ok r ∧
      r.2.1.fwd.activation = (activation_size_list [tIn, tOut, index_matrix tOut] : Int) ∧
      r.2.1.bwd.activation =
        (activation_size tIn : Int) - (activation_size (index_matrix tOut) : Int) ∧
      r.2.1.bwd.temp = (activation_size (index_matrix tOut) : Int) ∧
      r.2.1.total.activation = r.2.1.fwd.activation + r.2.1.bwd.activation ∧
      r.2.1.total.temp = r.2.1.bwd.temp ∧
      r.2.1.fwd.temp = 0 :=
  maxpool_memory_cost flopCount sampleArgs
    { type := .ARG, data := tIn } { type := .OUTPUT, data := tOut }
    (by decide) (by decide)

/-- C2 counterexample: the claim says the backward compute cost is the
backward FLOP entry applied to the output-gradient tensor *together
with the index buffer*; on a concrete call with a FLOP mapping that
counts its input tensors, the estimator's backward compute cost is 1
(only the output tensor is passed) while the claimed application
yields 2. -/
theorem maxpool_bwd_compute_counterexample :
    (maxpool_meta_info flopCount sampleArgs).toOption.map (fun r => r.1.bwd) = some 1 ∧
    flopCount.max_pool2d_with_indices_backward [tOut, index_matrix tOut] [tIn] = 2 ∧
    (1 : Int) ≠ 2 := by
  refine ⟨rfl, rfl, by decide⟩

/-- C2 (amended): the forward compute cost is the forward FLOP entry
applied to ([input], [output]); the backward compute cost is the
backward FLOP entry applied to ([output], [input]) — the index buffer
is *not* included in the backward input list; the total is
forward + backward. -/
theorem maxpool_compute_cost (f : FlopMapping) (args : List OperationData)
    (arg_item out_item : OperationData)
    (hA : args.find? (fun x => x.type == OperationDataType.ARG) = some arg_item)
    (hO : args.find? (fun x => x.type == OperationDataType.OUTPUT) = some out_item) :
    ∃ r : MetaInfo, maxpool_meta_info f args = .ok r ∧
      r.1.fwd = f.max_pool2d_with_indices [arg_item.data] [out_item.data] ∧
      r.1.bwd = f.max_pool2d_with_indices_backward [out_item.data] [arg_item.data] ∧
      r.1.total = r.1.fwd + r.1.bwd :=
  ⟨maxpool_core f arg_item.data out_item.data,
    maxpool_meta_info_eq f args arg_item out_item hA hO, rfl, rfl, rfl⟩

/-- C2 witness: the amended claim applied to a concrete call. -/
theorem maxpool_compute_cost_witness :
    ∃ r : MetaInfo, maxpool_meta_info flopCount sampleArgs = .ok r ∧
      r.1.fwd = flopCount.max_pool2d_with_indices [tIn] [tOut] ∧
      r.1.bwd = flopCount.max_pool2d_with_indices_backward [tOut] [tIn] ∧
      r.1.total = r.1.fwd + r.1.bwd :=
  maxpool_compute_cost flopCount sampleArgs
    { type := .ARG, data := tIn } { type := .OUTPUT, data := tOut }
    (by decide) (by decide)

/-- C3: for every call of `avgpool_meta_info` whose argument list has a
first ARG-tagged item with tensor `input` and a first OUTPUT-tagged item
with tensor `output`, the returned memory cost satisfies
`fwd.activation = activation_size output`,
`bwd.activation = activation_size input`,
`total.activation = fwd.activation + bwd.activation`, and all three
`temp` fields are 0. -/
theorem avgpool_memory_cost (f : FlopMapping) (args : List OperationData)
    (arg_item out_item : OperationData)
    (hA : args.find? (fun x => x.type == OperationDataType.ARG) = some arg_item)
    (hO : args.find? (fun x => x.type == OperationDataType.OUTPUT) = some out_item) :
    ∃ r : MetaInfo, avgpool_meta_info f args = .ok r ∧
      r.2.1.fwd.activation = (activation_size out_item.data : Int) ∧
      r.2.1.bwd.activation = (activation_size arg_item.data : Int) ∧
      r.2.1.total.activation = r.2.1.fwd.activation + r.2.1.bwd.activation ∧
      r.2.1.fwd.temp = 0 ∧ r.2.1.bwd.temp = 0 ∧ r.2.1.total.temp = 0 :=
  ⟨avgpool_core f arg_item.data out_item.data,
    avgpool_meta_info_eq f args arg_item out_item hA hO,
    rfl, rfl, rfl, rfl, rfl, rfl⟩

/-- C3 witness: the claim applied to a concrete call. -/
theorem avgpool_memory_cost_witness :
    ∃ r : MetaInfo, avgpool_meta_info flopCount sampleArgs = .ok r ∧
      r.2.1.fwd.activation = (activation_size tOut : Int) ∧
      r.2.1.bwd.activation = (activation_size tIn : Int) ∧
      r.2.1.total.activation = r.2.1.fwd.activation + r.2.1.bwd.activation ∧
      r.2.1.fwd.temp = 0 ∧ r.2.1.bwd.temp = 0 ∧ r.2.1.total.temp = 0 :=
  avgpool_memory_cost flopCount sampleArgs
    { type := .ARG, data := tIn } { type := .OUTPUT, data := tOut }
    (by decide) (by decide)

/-- C4: for every call of `avgpool_meta_info`, the forward compute cost
is the adaptive-avg-pool forward FLOP entry applied to
([input], [output]); the backward compute cost is the backward FLOP
entry applied with roles reversed, i.e. to ([output], [input]); and the
total is forward + backward. -/
theorem avgpool_compute_cost (f : FlopMapping) (args : List OperationData)
    (arg_item out_item : OperationData)
    (hA : args.find? (fun x => x.type == OperationDataType.ARG) = some arg_item)
    (hO : args.find? (fun x => x.type == OperationDataType.OUTPUT) = some out_item) :
    ∃ r : MetaInfo, avgpool_meta_info f args = .ok r ∧
      r.1.fwd = f.adaptive_avg_pool2d [arg_item.data] [out_item.data] ∧
      r.1.bwd = f.adaptive_avg_pool2d_backward [out_item.data] [arg_item.data] ∧
      r.1.total = r.1.fwd + r.1.bwd :=
  ⟨avgpool_core f arg_item.data out_item.data,
    avgpool_meta_info_eq f args arg_item out_item hA hO, rfl, rfl, rfl⟩

/-- C4 witness: the claim applied to a concrete call. -/
theorem avgpool_compute_cost_witness :
    ∃ r : MetaInfo, avgpool_meta_info flopCount sampleArgs = .ok r ∧
      r.1.fwd = flopCount.adaptive_avg_pool2d [tIn] [tOut] ∧
      r.1.bwd = flopCount.adaptive_avg_pool2d_backward [tOut] [tIn] ∧
      r.1.total = r.1.fwd + r.1.bwd :=
  avgpool_compute_cost flopCount sampleArgs
    { type := .ARG, data := tIn } { type := .OUTPUT, data := tOut }
    (by decide) (by decide)

/-- C5: on an argument list with no ARG-tagged item or no OUTPUT-tagged
item, both estimators signal the missing-operand error — no cost result
is returned and the error is not recovered locally. -/
theorem estimators_missing_operand (f : FlopMapping) (args : List OperationData)
    (h : args.find? (fun x => x.type == OperationDataType.ARG) = none ∨
         args.find? (fun x => x.type == OperationDataType.OUTPUT) = none) :
    avgpool_meta_info f args = .error .MissingOperandError ∧
    maxpool_meta_info f args = .error .MissingOperandError := by
  rcases h with h | h
  · simp [avgpool_meta_info, maxpool_meta_info, h]
  · cases hA : args.find? (fun x => x.type == OperationDataType.ARG) with
    | none => simp [avgpool_meta_info, maxpool_meta_info, hA]
    | some a => simp [avgpool_meta_info, maxpool_meta_info, hA, h]

/-- An argument sequence with an OUTPUT item but no ARG item. -/
def noArgList : List OperationData := [{ type := .OUTPUT, data := tOut }]

/-- C5 witness: the claim applied to a concrete ARG-free call. -/
theorem estimators_missing_operand_witness :
    avgpool_meta_info flopCount noArgList = .error .MissingOperandError ∧
    maxpool_meta_info flopCount noArgList = .error .MissingOperandError :=
  estimators_missing_operand flopCount noArgList (Or.inl (by decide))

/-- C6: `maxpool_meta_info` never validates that the index buffer is no
larger than the input: whenever the index buffer's byte size exceeds the
input tensor's byte size, the call still returns normally and the
backward activation byte count is negative. -/
theorem maxpool_no_size_validation (f : FlopMapping) (args : List OperationData)
    (arg_item out_item : OperationData)
    (hA : args.find? (fun x => x.type == OperationDataType.ARG) = some arg_item)
    (hO : args.find? (fun x => x.type == OperationDataType.OUTPUT) = some out_item)
    (hgt : activation_size arg_item.data < activation_size (index_matrix out_item.data)) :
    ∃ r : MetaInfo, maxpool_meta_info f args = .ok r ∧ r.2.1.bwd.activation < 0 := by
  refine ⟨maxpool_core f arg_item.data out_item.data,
    maxpool_meta_info_eq f args arg_item out_item hA hO, ?_⟩
  show (activation_size arg_item.data : Int) -
      (activation_size (index_matrix out_item.data) : Int) < 0
  omega

/-- A tensor whose index buffer outweighs it: 2 float32 elements
(8 bytes), while an int64 index buffer of the same shape is 16 bytes. -/
def tNarrow : MetaTensor := { shape := [2], elemSize := 4 }

/-- An argument sequence on which the max-pool backward activation byte
count goes negative. -/
def negArgs : List OperationData :=
  [{ type := .ARG, data := tNarrow }, { type := .OUTPUT, data := tNarrow }]

/-- C6 witness: the claim applied to a concrete call whose index buffer
is larger than its input. -/
theorem maxpool_no_size_validation_witness :
    ∃ r : MetaInfo, maxpool_meta_info flopCount negArgs = .ok r ∧
      r.2.1.bwd.activation < 0 :=
  maxpool_no_size_validation flopCount negArgs
    { type := .ARG, data := tNarrow } { type := .OUTPUT, data := tNarrow }
    (by decide) (by decide) (by decide)

/-- C7: in every call of `maxpool_meta_info`, the auxiliary index buffer
has exactly the output tensor's shape and 8-byte (int64) elements, so
its byte size is 8 × element count of the output; it exists only as
shape/dtype metadata (the `MetaTensor` type carries no data), and the
call accounts its size as the backward temporary. -/
theorem maxpool_index_buffer (f : FlopMapping) (args : List OperationData)
    (arg_item out_item : OperationData)
    (hA : args.find? (fun x => x.type == OperationDataType.ARG) = some arg_item)
    (hO : args.find? (fun x => x.type == OperationDataType.OUTPUT) = some out_item) :
    (index_matrix out_item.data).shape = out_item.data.shape ∧
    (index_matrix out_item.data).elemSize = 8 ∧
    activation_size (index_matrix out_item.data) = 8 * numel out_item.data ∧
    ∃ r : MetaInfo, maxpool_meta_info f args = .ok r ∧
      r.2.1.bwd.temp = ((8 * numel out_item.data : Nat) : Int) := by
  refine ⟨rfl, rfl, ?_, maxpool_core f arg_item.data out_item.data,
    maxpool_meta_info_eq f args arg_item out_item hA hO, ?_⟩
  · show numel out_item.data * 8 = 8 * numel out_item.data
    omega
  · show ((numel out_item.data * 8 : Nat) : Int) = ((8 * numel out_item.data : Nat) : Int)
    omega

/-- C7 witness: the claim applied to a concrete call. -/
theorem maxpool_index_buffer_witness :
    (index_matrix tOut).shape = tOut.shape ∧
    (index_matrix tOut).elemSize = 8 ∧
    activation_size (index_matrix tOut) = 8 * numel tOut ∧
    ∃ r : MetaInfo, maxpool_meta_info flopCount sampleArgs = .ok r ∧
      r.2.1.bwd.temp = ((8 * numel tOut : Nat) : Int) :=
  maxpool_index_buffer flopCount sampleArgs
    { type := .ARG, data := tIn } { type := .OUTPUT, data := tOut }
    (by decide) (by decide)

/-- C8: both estimators are deterministic — two calls to the same
estimator with identical argument sequences (and the same FLOP-mapping
collaborator) return identical results.  Both are pure functions of
their arguments in this embedding, mirroring the stateless source. -/
theorem estimators_deterministic (f : FlopMapping) (args1 args2 : List OperationData)
    (h : args1 = args2) :
    avgpool_meta_info f args1 = avgpool_meta_info f args2 ∧
    maxpool_meta_info f args1 = maxpool_meta_info f args2 := by
  rw [h]
  exact ⟨rfl, rfl⟩

/-- C8 witness: the claim applied to a concrete pair of identical
calls. -/
theorem estimators_deterministic_witness :
    avgpool_meta_info flopCount sampleArgs = avgpool_meta_info flopCount sampleArgs ∧
    maxpool_meta_info flopCount sampleArgs = maxpool_meta_info flopCount sampleArgs :=
  estimators_deterministic flopCount sampleArgs sampleArgs rfl

/-- C9: every successful call of either estimator returns, as the third
component of its result, exactly the one-element list holding the
tensor of the first ARG-tagged item. -/
theorem estimators_fwd_saved_inputs (f : FlopMapping) (args : List OperationData)
    (r : MetaInfo)
    (h : avgpool_meta_info f args = .ok r ∨ maxpool_meta_info f args = .ok r) :
    ∃ arg_item, args.find? (fun x => x.type == OperationDataType.ARG) = some arg_item ∧
      r.2.2 = [arg_item.data] := by
  cases hA : args.find? (fun x => x.type == OperationDataType.ARG) with
  | none =>
    rcases h with h | h <;> simp [avgpool_meta_info, maxpool_meta_info, hA] at h
  | some a =>
    refine ⟨a, rfl, ?_⟩
    cases hO : args.find? (fun x => x.type == OperationDataType.OUTPUT) with
    | none =>
      rcases h with h | h <;> simp [avgpool_meta_info, maxpool_meta_info, hA, hO] at h
    | some o =>
      rcases h with h | h
      · rw [avgpool_meta_info_eq f args a o hA hO, Except.ok.injEq] at h
        rw [← h]
        rfl
      · rw [maxpool_meta_info_eq f args a o hA hO, Except.ok.injEq] at h
        rw [← h]
        rfl

/-- C9 witness: the claim applied to a concrete successful call. -/
theorem estimators_fwd_saved_inputs_witness :
    ∃ arg_item,
      sampleArgs.find? (fun x => x.type == OperationDataType.ARG) = some arg_item ∧
      (avgpool_core flopCount tIn tOut).2.2 = [arg_item.data] :=
  estimators_fwd_saved_inputs flopCount sampleArgs
    (avgpool_core flopCount tIn tOut) (Or.inl rfl)

/-- C10: each estimator's result depends only on the tensors of the
first ARG-tagged item and the first OUTPUT-tagged item: two argument
sequences agreeing on those tensors get identical results, regardless
of any further items in either sequence. -/
theorem estimators_depend_on_first_operands (f : FlopMapping)
    (args1 args2 : List OperationData) (a1 o1 a2 o2 : OperationData)
    (hA1 : args1.find? (fun x => x.type == OperationDataType.ARG) = some a1)
    (hO1 : args1.find? (fun x => x.type == OperationDataType.OUTPUT) = some o1)
    (hA2 : args2.find? (fun x => x.type == OperationDataType.ARG) = some a2)
    (hO2 : args2.find? (fun x => x.type == OperationDataType.OUTPUT) = some o2)
    (hda : a1.data = a2.data) (hdo : o1.data = o2.data) :
    avgpool_meta_info f args1 = avgpool_meta_info f args2 ∧
    maxpool_meta_info f args1 = maxpool_meta_info f args2 := by
  rw [avgpool_meta_info_eq f args1 a1 o1 hA1 hO1,
    avgpool_meta_info_eq f args2 a2 o2 hA2 hO2,
    maxpool_meta_info_eq f args1 a1 o1 hA1 hO1,
    maxpool_meta_info_eq f args2 a2 o2 hA2 hO2, hda, hdo]
  exact ⟨rfl, rfl⟩

/-- `sampleArgs` with additional trailing items of every role: the first
ARG and OUTPUT items are unchanged. -/
def paddedArgs : List OperationData :=
  sampleArgs ++
    [{ type := .PARAM, data := tNarrow }, { type := .ARG, data := tNarrow },
     { type := .OUTPUT, data := tNarrow }]

/-- C10 witness: the claim applied to a concrete pair of sequences, one
with extra trailing items. -/
theorem estimators_depend_on_first_operands_witness :
    avgpool_meta_info flopCount sampleArgs = avgpool_meta_info flopCount paddedArgs ∧
    maxpool_meta_info flopCount sampleArgs = maxpool_meta_info flopCount paddedArgs :=
  estimators_depend_on_first_operands flopCount sampleArgs paddedArgs
    { type := .ARG, data := tIn } { type := .OUTPUT, data := tOut }
    { type := .ARG, data := tIn } { type := .OUTPUT, data := tOut }
    (by decide) (by decide) (by decide) (by decide) rfl rfl
